import Mathlib

/-!
Shallow embedding of `src/app.py`, a minimal Flask file-sharing service.

State: the SQLite database (tables `files` and `download_logs`) and the
upload directory on disk. Timestamps are modelled as `Int` seconds;
`datetime.timedelta(days=30)` is `30 * 86400` seconds, and SQLite's
`DATE(ts)` (calendar-date bucketing) is floor division by `86400`.

Each Flask route handler becomes a function from the pre-state (plus the
request data and the values the environment supplies: the fresh UUID, the
current time, whether the disk write succeeds) to a result and post-state.
-/

namespace FileShare

/-- One row of the `files` table (schema in `init_database`). -/
structure FileRecord where
  id : String
  original_name : String
  stored_name : String
  file_size : Nat
  mime_type : String
  description : String
  uploader : String
  upload_date : Int
  download_count : Nat
  last_accessed : Int
  deriving DecidableEq, Repr

/-- One row of the `download_logs` table (the AUTOINCREMENT surrogate key
is the position in the list and is not modelled). -/
structure DownloadLogEntry where
  file_id : String
  download_date : Int
  ip_address : String
  deriving DecidableEq, Repr

/-- The upload directory: an association list from on-disk filename
(`stored_name`) to file content, first binding wins. -/
abbrev Disk := List (String × List Nat)

/-- `os.path.exists` / reading a file: first binding for the name. -/
def diskGet (d : Disk) (name : String) : Option (List Nat) :=
  (d.find? (fun e => e.1 = name)).map (fun e => e.2)

/-- Writing a file (`file.save`): overwrite any previous binding. -/
def diskSet (d : Disk) (name : String) (content : List Nat) : Disk :=
  (name, content) :: d.filter (fun e => ¬ e.1 = name)

/-- `os.remove` guarded by `os.path.exists`: drop every binding for the
name; absence is not an error. -/
def diskRemove (d : Disk) (name : String) : Disk :=
  d.filter (fun e => ¬ e.1 = name)

/-- The whole persistent state: both database tables plus the upload
directory. -/
structure ServerState where
  files : List FileRecord
  logs : List DownloadLogEntry
  disk : Disk
  deriving DecidableEq, Repr

/-- `MAX_FILE_SIZE = 1 * 1024 * 1024 * 1024` (1 GiB). -/
def MAX_FILE_SIZE : Nat := 1 * 1024 * 1024 * 1024

/-- `datetime.timedelta(days=30)` in seconds. -/
def thirtyDays : Int := 30 * 86400

/-- SQLite `DATE(ts)` / `strftime('%Y-%m-%d')`: the calendar day bucket of
a timestamp. -/
def dayOf (t : Int) : Int := t.fdiv 86400

/-- `allowed_file` in the source returns `True` for every filename. -/
def allowed_file (_filename : String) : Bool := true

section Cleanup

/-- The `WHERE last_accessed < ? OR upload_date < ?` condition used by
both the SELECT and the DELETE in `cleanup_old_files`. -/
def isExpired (cutoff : Int) (r : FileRecord) : Bool :=
  r.last_accessed < cutoff || r.upload_date < cutoff

/-- `cleanup_old_files`: computes `thirty_days_ago`, selects the rows
matching `last_accessed < cutoff OR upload_date < cutoff`, removes their
physical files, then deletes the same rows from `files`. The
`download_logs` table is not touched. -/
def cleanup_old_files (st : ServerState) (now : Int) : ServerState :=
  let thirty_days_ago := now - thirtyDays
  let old_files := st.files.filter (isExpired thirty_days_ago)
  let disk' := old_files.foldl (fun d r => diskRemove d r.stored_name) st.disk
  let files' := st.files.filter (fun r => ¬ isExpired thirty_days_ago r = true)
  { st with files := files', disk := disk' }

end Cleanup

section Upload

/-- The multipart `file` field: client-supplied filename and raw bytes. -/
structure UploadedFile where
  filename : String
  content : List Nat
  deriving DecidableEq, Repr

/-- A `POST /upload` request: optional `file` field, optional
`description` and `uploader` form fields. -/
structure UploadRequest where
  file : Option UploadedFile
  description : Option String
  uploader : Option String
  deriving DecidableEq, Repr

/-- Outcome of the `/upload` handler. -/
inductive UploadResult where
  | redirect
  | tooLarge
  | serverError
  deriving DecidableEq, Repr

/-- `upload_file`: the `/upload` handler.

Environment inputs: `freshId` stands for `str(uuid.uuid4())`, `now` for
`CURRENT_TIMESTAMP` (the DB defaults for `upload_date` / `last_accessed`),
`sanitize` for `werkzeug.utils.secure_filename`, `mimeGuess` for
`mimetypes.guess_type(...)[0]`, and `saveOk` for whether `file.save`
succeeds (when it raises, the `except` clause returns a 500 error and the
database insert never runs).

Flask enforces `MAX_CONTENT_LENGTH` while parsing the multipart body, so
an oversized payload raises `RequestEntityTooLarge` before any handler
logic runs; the handler catches it and returns 413. -/
def upload_file (st : ServerState) (req : UploadRequest) (freshId : String)
    (now : Int) (sanitize : String → String) (mimeGuess : Option String)
    (saveOk : Bool) : UploadResult × ServerState :=
  if (req.file.map (fun f => f.content.length)).getD 0 > MAX_FILE_SIZE then
    (UploadResult.tooLarge, st)
  else
    match req.file with
    | none => (UploadResult.redirect, st)
    | some file =>
      if file.filename = "" then
        (UploadResult.redirect, st)
      else if allowed_file file.filename then
        let original_name := sanitize file.filename
        let stored_name := freshId ++ "_" ++ original_name
        if saveOk then
          let disk' := diskSet st.disk stored_name file.content
          let file_size := ((diskGet disk' stored_name).getD []).length
          let mime_type := mimeGuess.getD "application/octet-stream"
          let row : FileRecord :=
            { id := freshId
              original_name := original_name
              stored_name := stored_name
              file_size := file_size
              mime_type := mime_type
              description := req.description.getD ""
              uploader := req.uploader.getD "Anonymous"
              upload_date := now
              download_count := 0
              last_accessed := now }
          (UploadResult.redirect, { st with files := st.files ++ [row], disk := disk' })
        else
          (UploadResult.serverError, st)
      else
        (UploadResult.redirect, st)

end Upload

section Download

/-- Outcome of the `/download/<file_id>` handler. -/
inductive DownloadResult where
  /-- "File not found!", 404: no row with that id. -/
  | notFound
  /-- "File not found on disk!", 404: row exists, physical file missing. -/
  | notFoundOnDisk
  /-- `send_file` succeeds: served content and suggested download name. -/
  | ok (content : List Nat) (download_name : String)
  deriving DecidableEq, Repr

/-- The row update performed by
`UPDATE files SET download_count = download_count + 1,
last_accessed = CURRENT_TIMESTAMP WHERE id = ?`. -/
def bumpAccess (fid : String) (now : Int) (r : FileRecord) : FileRecord :=
  if r.id = fid then
    { r with download_count := r.download_count + 1, last_accessed := now }
  else r

/-- `download_file`: the `/download/<file_id>` handler.

Looks the row up; if absent, returns 404 with no state change. Otherwise
it increments the counter, stamps `last_accessed`, inserts the log row and
commits — all BEFORE checking whether the physical file exists — and only
then serves the file or returns the "not found on disk" 404. -/
def download_file (st : ServerState) (fid : String) (now : Int)
    (remote_addr : String) : DownloadResult × ServerState :=
  match st.files.find? (fun r => r.id = fid) with
  | none => (DownloadResult.notFound, st)
  | some file_info =>
    let files' := st.files.map (bumpAccess fid now)
    let logs' := st.logs ++ [⟨fid, now, remote_addr⟩]
    let st' : ServerState := { st with files := files', logs := logs' }
    match diskGet st.disk file_info.stored_name with
    | some content => (DownloadResult.ok content file_info.original_name, st')
    | none => (DownloadResult.notFoundOnDisk, st')

end Download

section Delete

/-- Outcome of the `/delete/<file_id>` handler. -/
inductive DeleteResult where
  /-- JSON `{success: true, message: "File deleted successfully"}`. -/
  | success
  /-- 404 JSON `{success: false, message: "File not found"}`. -/
  | notFound
  deriving DecidableEq, Repr

/-- `delete_file`: the `/delete/<file_id>` handler.

Looks the row up; 404 with no state change if absent. Otherwise removes
the physical file if present (absence only prints a message), then
`DELETE FROM download_logs WHERE file_id = ?` and
`DELETE FROM files WHERE id = ?`. -/
def delete_file (st : ServerState) (fid : String) : DeleteResult × ServerState :=
  match st.files.find? (fun r => r.id = fid) with
  | none => (DeleteResult.notFound, st)
  | some file_info =>
    let disk' := diskRemove st.disk file_info.stored_name
    let logs' := st.logs.filter (fun e => ¬ e.file_id = fid)
    let files' := st.files.filter (fun r => ¬ r.id = fid)
    (DeleteResult.success, { files := files', logs := logs', disk := disk' })

end Delete

section Listing

/-- One element of the `/api/files` JSON array: the projection selected by
`SELECT id, original_name, description, uploader, upload_date, file_size,
download_count FROM files`. -/
structure FileSummary where
  id : String
  original_name : String
  description : String
  uploader : String
  upload_date : Int
  file_size : Nat
  download_count : Nat
  deriving DecidableEq, Repr

/-- The projection of a row onto the public columns. -/
def summary (r : FileRecord) : FileSummary :=
  { id := r.id
    original_name := r.original_name
    description := r.description
    uploader := r.uploader
    upload_date := r.upload_date
    file_size := r.file_size
    download_count := r.download_count }

/-- `ORDER BY upload_date DESC` as a relation on rows. -/
def byUploadDateDesc (a b : FileRecord) : Prop := b.upload_date ≤ a.upload_date

instance : DecidableRel byUploadDateDesc := fun a b =>
  inferInstanceAs (Decidable (b.upload_date ≤ a.upload_date))

/-- `api_files`: the `/api/files` handler. Returns every row's public
columns ordered by `upload_date` descending; no pagination. -/
def api_files (st : ServerState) : List FileSummary :=
  (st.files.insertionSort byUploadDateDesc).map summary

/-- The `/api/stats` JSON object. -/
structure Stats where
  total_files : Nat
  total_size : Nat
  files_today : Nat
  deriving DecidableEq, Repr

/-- `SELECT SUM(file_size) FROM files`: SQL SUM is NULL on an empty
table, and the handler coalesces NULL to 0 with `or 0`. -/
def sumFileSize (files : List FileRecord) : Option Nat :=
  if files = [] then none else some (files.map (fun r => r.file_size)).sum

/-- `api_stats`: the `/api/stats` handler. `COUNT(*)`, coalesced
`SUM(file_size)`, and the count of rows with `DATE(upload_date)` equal to
today's server-local calendar date. -/
def api_stats (st : ServerState) (now : Int) : Stats :=
  let total_files := st.files.length
  let total_size := (sumFileSize st.files).getD 0
  let today := dayOf now
  let files_today := st.files.countP (fun r => dayOf r.upload_date = today)
  { total_files := total_files, total_size := total_size, files_today := files_today }

end Listing

/-! ### General lemmas about the embedded operations -/

/-- A filter that removed everything matching `p` leaves nothing for
`find? p` to find. -/
theorem find?_of_filter_not {α : Type} (p : α → Prop) [DecidablePred p]
    (l : List α) :
    (l.filter (fun a => ¬ p a)).find? (fun a => p a) = none := by
  refine List.find?_eq_none.2 ?_
  intro x hx
  have hmem := (List.mem_filter.1 hx).2
  simpa using hmem

/-- When no row matches the id, `delete_file` is a no-op answering 404. -/
theorem delete_file_not_found (st : ServerState) (fid : String)
    (h : st.files.find? (fun r => r.id = fid) = none) :
    delete_file st fid = (DeleteResult.notFound, st) := by
  simp [delete_file, h]

/-- When no row matches the id, `download_file` is a no-op answering 404. -/
theorem download_file_not_found (st : ServerState) (fid : String)
    (now : Int) (addr : String)
    (h : st.files.find? (fun r => r.id = fid) = none) :
    download_file st fid now addr = (DownloadResult.notFound, st) := by
  simp [download_file, h]

/-- Removing a name from the disk makes lookups of that name fail. -/
theorem diskGet_diskRemove (d : Disk) (name : String) :
    diskGet (diskRemove d name) name = none := by
  have h := find?_of_filter_not (fun e : String × List Nat => e.1 = name) d
  simp [diskGet, diskRemove, h]

/-! ### C1: the expiry sweep's selection condition -/

/-- A record whose `upload_date` is 40 days in the past but whose
`last_accessed` is the current instant. -/
def staleUploadRec : FileRecord :=
  { id := "a", original_name := "a.txt", stored_name := "a_a.txt"
    file_size := 10, mime_type := "text/plain", description := ""
    uploader := "alice", upload_date := 0, download_count := 0
    last_accessed := 40 * 86400 }

/-- State holding only `staleUploadRec` and its physical file. -/
def staleUploadState : ServerState :=
  { files := [staleUploadRec], logs := [], disk := [("a_a.txt", [1, 2, 3])] }

/-- C1 counterexample: at `now = 40` days, `staleUploadRec` has
`last_accessed` within the last 30 days (it equals `now`), so the claim
says `ExpireOlderThan(30 days)` must leave it untouched; the code's
`OR` condition deletes it (and its physical file). -/
theorem c1_counterexample :
    (40 * 86400 : Int) - thirtyDays ≤ staleUploadRec.last_accessed ∧
    (cleanup_old_files staleUploadState (40 * 86400)).files = [] ∧
    diskGet (cleanup_old_files staleUploadState (40 * 86400)).disk
      "a_a.txt" = none := by
  refine ⟨by decide, by decide, by decide⟩

/-- C1 amended: the sweep removes exactly the records for which
`last_accessed` OR `upload_date` is older than `now - 30 days`; a record
is retained only if BOTH timestamps are within the last 30 days, and
retained records are left untouched. -/
theorem c1_cleanup_removes_either_old (st : ServerState) (now : Int)
    (r : FileRecord) :
    r ∈ (cleanup_old_files st now).files ↔
      r ∈ st.files ∧
        ¬(r.last_accessed < now - thirtyDays ∨
          r.upload_date < now - thirtyDays) := by
  simp [cleanup_old_files, List.mem_filter, isExpired, not_or]

/-! ### C3: write-then-record ordering in Ingest -/

/-- C3: when the disk write raises (`saveOk = false`), `upload_file`
returns the 500 error and the state — in particular the `files` table —
is unchanged: no metadata record is created. -/
theorem c3_failed_write_creates_no_record (st : ServerState)
    (req : UploadRequest) (freshId : String) (now : Int)
    (sanitize : String → String) (mimeGuess : Option String)
    (f : UploadedFile) (h1 : req.file = some f) (h2 : ¬ f.filename = "")
    (h3 : f.content.length ≤ MAX_FILE_SIZE) :
    upload_file st req freshId now sanitize mimeGuess false =
      (UploadResult.serverError, st) := by
  simp [upload_file, h1, h2, allowed_file, Nat.not_lt.2 h3]

/-- C3 witness: a concrete failed ingestion of a small file leaves the
empty state untouched and reports the error. -/
theorem c3_failed_write_witness :
    upload_file ⟨[], [], []⟩ ⟨some ⟨"a.txt", [1, 2]⟩, none, none⟩ "id0" 5
        (fun s => s) none false =
      (UploadResult.serverError, ⟨[], [], []⟩) :=
  c3_failed_write_creates_no_record ⟨[], [], []⟩
    ⟨some ⟨"a.txt", [1, 2]⟩, none, none⟩ "id0" 5 (fun s => s) none
    ⟨"a.txt", [1, 2]⟩ rfl (by decide) (by decide)

/-! ### C5: Remove on a nonexistent id -/

/-- C5: when no record has the requested id, `delete_file` answers
`NotFound` and returns the state unchanged: no file deleted, neither
table modified. -/
theorem c5_delete_nonexistent_unchanged (st : ServerState) (fid : String)
    (h : ∀ r ∈ st.files, ¬ r.id = fid) :
    delete_file st fid = (DeleteResult.notFound, st) := by
  have hnone : st.files.find? (fun r => r.id = fid) = none := by
    refine List.find?_eq_none.2 ?_
    intro x hx
    simpa using h x hx
  simp [delete_file, hnone]

/-- C5 witness: deleting an unknown id from a concrete one-record state
changes nothing. -/
theorem c5_delete_nonexistent_witness :
    delete_file staleUploadState "zzz" =
      (DeleteResult.notFound, staleUploadState) :=
  c5_delete_nonexistent_unchanged staleUploadState "zzz" (by decide)

/-! ### C9: the expiry sweep never touches the download_logs table -/

/-- C9: the sweep leaves `download_logs` exactly as it was (log rows are
only ever deleted by `delete_file`), and it only ever deletes rows of
`files` (the surviving table is a sublist of the original). -/
theorem c9_cleanup_preserves_logs (st : ServerState) (now : Int) :
    (cleanup_old_files st now).logs = st.logs ∧
    (cleanup_old_files st now).files.Sublist st.files := by
  exact ⟨rfl, List.filter_sublist st.files⟩

/-! ### C10: Ingest with no file field or an empty filename -/

/-- C10: if the request has no `file` field, or its file has an empty
filename (and the payload is within the 1 GiB body limit Flask enforces
before the handler's checks run), `upload_file` redirects to the index
and changes nothing: no record, no disk write. -/
theorem c10_missing_file_redirects (st : ServerState) (req : UploadRequest)
    (freshId : String) (now : Int) (sanitize : String → String)
    (mimeGuess : Option String) (saveOk : Bool)
    (h : req.file = none ∨
      ∃ f, req.file = some f ∧ f.filename = "" ∧
        f.content.length ≤ MAX_FILE_SIZE) :
    upload_file st req freshId now sanitize mimeGuess saveOk =
      (UploadResult.redirect, st) := by
  rcases h with h | ⟨f, hf, hname, hsize⟩
  · simp [upload_file, h, MAX_FILE_SIZE]
  · simp [upload_file, hf, hname, Nat.not_lt.2 hsize]

/-- C10 witness: a concrete request whose file part has an empty filename
is answered with a redirect and an unchanged state. -/
theorem c10_missing_file_witness :
    upload_file ⟨[], [], []⟩ ⟨some ⟨"", [7]⟩, none, none⟩ "id1" 9
        (fun s => s) none true =
      (UploadResult.redirect, ⟨[], [], []⟩) :=
  c10_missing_file_redirects ⟨[], [], []⟩ ⟨some ⟨"", [7]⟩, none, none⟩
    "id1" 9 (fun s => s) none true
    (Or.inr ⟨⟨"", [7]⟩, rfl, rfl, by decide⟩)

/-! ### C2: Retrieve's effect on metadata -/

/-- A record whose physical file is absent from the upload directory. -/
def missingFileRec : FileRecord :=
  { id := "m", original_name := "m.bin", stored_name := "m_m.bin"
    file_size := 4, mime_type := "application/octet-stream"
    description := "", uploader := "Anonymous", upload_date := 0
    download_count := 0, last_accessed := 0 }

/-- A state with `missingFileRec` in the database but an empty disk. -/
def missingFileState : ServerState :=
  { files := [missingFileRec], logs := [], disk := [] }

/-- C2 counterexample: retrieving `missingFileRec` fails with the
"not found on disk" 404, yet — contrary to the claim that a `NotFound`
retrieval leaves the record's metadata unchanged — `download_count` has
been incremented, `last_accessed` updated, and a log row appended,
because the handler commits those writes before checking the disk. -/
theorem c2_counterexample :
    (download_file missingFileState "m" 7 "ip").1 =
      DownloadResult.notFoundOnDisk ∧
    (download_file missingFileState "m" 7 "ip").2.files =
      [{ missingFileRec with download_count := 1, last_accessed := 7 }] ∧
    (download_file missingFileState "m" 7 "ip").2.logs = [⟨"m", 7, "ip"⟩] := by
  refine ⟨by decide, by decide, by decide⟩

/-- C2 amended: `download_count` starts at 0 (Ingest always persists the
record with count 0) and every retrieval that finds the record — whether
or not the physical file exists — increments it by exactly 1, sets
`last_accessed` to the current time, and appends exactly one log row;
only a retrieval whose id matches no record leaves the state unchanged.
When the record exists but the file is missing on disk the handler still
commits those metadata writes before returning `NotFound`. -/
theorem c2_retrieve_effects (st : ServerState) (fid : String) (now : Int)
    (addr : String) :
    (∀ (req : UploadRequest) (f : UploadedFile) (sanitize : String → String)
        (mimeGuess : Option String),
      req.file = some f → ¬ f.filename = "" →
      f.content.length ≤ MAX_FILE_SIZE →
      ∃ row, (upload_file st req fid now sanitize mimeGuess true).2.files =
          st.files ++ [row] ∧ row.download_count = 0) ∧
    (st.files.find? (fun r => r.id = fid) = none →
      download_file st fid now addr = (DownloadResult.notFound, st)) ∧
    (∀ info, st.files.find? (fun r => r.id = fid) = some info →
      (download_file st fid now addr).2.files =
        st.files.map (bumpAccess fid now) ∧
      (download_file st fid now addr).2.logs =
        st.logs ++ [⟨fid, now, addr⟩] ∧
      (download_file st fid now addr).2.disk = st.disk ∧
      (diskGet st.disk info.stored_name = none →
        (download_file st fid now addr).1 =
          DownloadResult.notFoundOnDisk)) ∧
    (∀ r : FileRecord,
      (r.id = fid → bumpAccess fid now r =
        { r with download_count := r.download_count + 1,
                 last_accessed := now }) ∧
      (¬ r.id = fid → bumpAccess fid now r = r)) := by
  refine ⟨?_, ?_, ?_, ?_⟩
  · intro req f sanitize mimeGuess h1 h2 h3
    simp [upload_file, h1, h2, allowed_file, Nat.not_lt.2 h3]
  · intro h
    simp [download_file, h]
  · intro info h
    cases hdisk : diskGet st.disk info.stored_name with
    | none => simp [download_file, h, hdisk]
    | some content => simp [download_file, h, hdisk]
  · intro r
    constructor
    · intro h
      simp [bumpAccess, h]
    · intro h
      simp [bumpAccess, h]

/-- C2 witness: at the concrete missing-file state, the amended theorem
yields the appended log row and the exact bump of the record. -/
theorem c2_retrieve_effects_witness :
    (download_file missingFileState "m" 7 "ip").2.logs =
      missingFileState.logs ++ [⟨"m", 7, "ip"⟩] ∧
    bumpAccess "m" 7 missingFileRec =
      { missingFileRec with download_count := 1, last_accessed := 7 } := by
  have h := c2_retrieve_effects missingFileState "m" 7 "ip"
  exact ⟨(h.2.2.1 missingFileRec (by decide)).2.1,
    (h.2.2.2 missingFileRec).1 rfl⟩

/-! ### C4: Remove on an existing id -/

/-- C4: deleting an id that has a record succeeds, removes the physical
file, removes every log row for that id (and keeps the others), makes
the record disappear from `/api/files`, and leaves later `download_file`
or `delete_file` calls on the same id answering `NotFound` without
further state change. -/
theorem c4_delete_existing (st : ServerState) (fid : String)
    (info : FileRecord) (now : Int) (addr : String)
    (h : st.files.find? (fun r => r.id = fid) = some info) :
    (delete_file st fid).1 = DeleteResult.success ∧
    diskGet (delete_file st fid).2.disk info.stored_name = none ∧
    (∀ s ∈ api_files (delete_file st fid).2, ¬ s.id = fid) ∧
    (delete_file st fid).2.logs =
      st.logs.filter (fun e => ¬ e.file_id = fid) ∧
    download_file (delete_file st fid).2 fid now addr =
      (DownloadResult.notFound, (delete_file st fid).2) ∧
    delete_file (delete_file st fid).2 fid =
      (DeleteResult.notFound, (delete_file st fid).2) := by
  have hfiles : (delete_file st fid).2.files =
      st.files.filter (fun r => ¬ r.id = fid) := by
    simp [delete_file, h]
  have hnone : (delete_file st fid).2.files.find?
      (fun r => r.id = fid) = none := by
    rw [hfiles]
    exact find?_of_filter_not (fun r => r.id = fid) st.files
  refine ⟨by simp [delete_file, h], ?_, ?_, by simp [delete_file, h], ?_, ?_⟩
  · have : (delete_file st fid).2.disk =
        diskRemove st.disk info.stored_name := by
      simp [delete_file, h]
    rw [this]
    exact diskGet_diskRemove st.disk info.stored_name
  · intro s hs
    obtain ⟨r, hr, hrs⟩ := List.mem_map.1 hs
    have hr' : r ∈ (delete_file st fid).2.files :=
      List.mem_insertionSort byUploadDateDesc |>.1 hr
    rw [hfiles] at hr'
    have := (List.mem_filter.1 hr').2
    intro hid
    apply of_decide_eq_true this
    rw [← hrs] at hid
    exact hid
  · exact download_file_not_found _ fid now addr hnone
  · exact delete_file_not_found _ fid hnone

/-- C4 witness: deleting the concrete record of `staleUploadState`
succeeds and removes its physical file. -/
theorem c4_delete_existing_witness :
    (delete_file staleUploadState "a").1 = DeleteResult.success ∧
    diskGet (delete_file staleUploadState "a").2.disk
      staleUploadRec.stored_name = none := by
  have h := c4_delete_existing staleUploadState "a" staleUploadRec 0 "ip"
    (by decide)
  exact ⟨h.1, h.2.1⟩

/-! ### C6: Stats agrees with the listing -/

/-- C6: `total_files` equals the length of the `/api/files` listing,
`total_size` equals the sum of `file_size` over exactly the listed
records, and the sum is 0 when there are no records. -/
theorem c6_stats_match_listing (st : ServerState) (now : Int) :
    (api_stats st now).total_files = (api_files st).length ∧
    (api_stats st now).total_size =
      ((api_files st).map (fun s => s.file_size)).sum ∧
    (st.files = [] → (api_stats st now).total_size = 0) := by
  have hperm : (st.files.insertionSort byUploadDateDesc).Perm st.files :=
    List.perm_insertionSort _ _
  have hsum : ((api_files st).map (fun s => s.file_size)).sum =
      (st.files.map (fun r => r.file_size)).sum := by
    have := (hperm.map (fun r => r.file_size)).sum_eq
    simpa [api_files, List.map_map, Function.comp] using this
  refine ⟨?_, ?_, ?_⟩
  · simp [api_stats, api_files, List.length_insertionSort]
  · rw [hsum]
    by_cases hnil : st.files = []
    · simp [api_stats, sumFileSize, hnil]
    · simp [api_stats, sumFileSize, hnil]
  · intro hnil
    simp [api_stats, sumFileSize, hnil]

/-- C6 witness: the empty-table conjunct holds at a concrete empty
state. -/
theorem c6_stats_match_listing_witness :
    (api_stats ⟨[], [], []⟩ 0).total_size = 0 :=
  (c6_stats_match_listing ⟨[], [], []⟩ 0).2.2 rfl

/-! ### C7: the listing is complete and sorted -/

instance : IsTotal FileRecord byUploadDateDesc :=
  ⟨fun a b => le_total b.upload_date a.upload_date⟩

instance : IsTrans FileRecord byUploadDateDesc :=
  ⟨fun _ _ _ hab hbc => le_trans hbc hab⟩

/-- C7: `/api/files` returns the public projection of every record —
the output is a permutation of `summary` over the whole table — ordered
by `upload_date` descending (each element's `upload_date` is ≥ the
next's), with no truncation. -/
theorem c7_api_files_complete_sorted (st : ServerState) :
    (api_files st).Perm (st.files.map summary) ∧
    (api_files st).Sorted
      (fun a b : FileSummary => b.upload_date ≤ a.upload_date) := by
  constructor
  · exact (List.perm_insertionSort _ _).map _
  · have hs : (st.files.insertionSort byUploadDateDesc).Sorted
        byUploadDateDesc := List.sorted_insertionSort _ _
    exact List.Pairwise.map summary (fun a b hab => hab) hs

/-! ### C8: files_uploaded_today -/

/-- C8: the `files_today` stat is exactly the number of records whose
`upload_date` falls in the same calendar-day bucket as the current
time. -/
theorem c8_files_today_counts_current_day (st : ServerState) (now : Int) :
    (api_stats st now).files_today =
      (st.files.filter (fun r => dayOf r.upload_date = dayOf now)).length := by
  simp [api_stats, List.countP_eq_length_filter]

end FileShare
